import Mathlib

/-!
Verification development for the definex-plugin contract engine.

Shallow embedding of the core pipeline:
  - SchemaTranslator.resolve_type    (src/definex/plugin/core/translator.py)
  - PYTHON_TO_SYSTEM_MAP / MAX_NESTING_DEPTH (src/definex/plugin/sdk/base.py)
  - CodeScanner._parse_to_meta, CacheManager.is_cache_valid,
    CodeScanner.scan_tools_directory (src/definex/plugin/core/scanner.py)
  - ProjectValidator.check_all, _check_code_alignment, _check_manifest_content,
    _recursive_validate_schema, _check_requirements (src/definex/plugin/core/validator.py)
  - ManifestGenerator._build_manifest_data (src/definex/plugin/core/manifest_generator.py)
  - RealtimeCollector (src/definex/plugin/sdk/collector.py) and
    ResourcePolicy (src/definex/plugin/sdk/policy.py)
  - PluginRuntime.execute generator branch (src/definex/plugin/runtime.py)

Python dictionaries are modelled as ordered association lists of JSON-like
values; machine integers do not overflow in any path modelled here, so Nat/Int
are used directly.
-/

/-- A JSON-like Python value: schema nodes and manifest documents are plain
dicts with string keys in the source, modelled as ordered association lists. -/
inductive JVal where
  | s (v : String)
  | i (v : Int)
  | b (v : Bool)
  | null
  | arr (vs : List JVal)
  | obj (fields : List (String × JVal))

/-- A Python dict with string keys, in insertion order. -/
abbrev JObj := List (String × JVal)

mutual

def JVal.beq : JVal → JVal → Bool
  | .s a, .s c => a == c
  | .i a, .i c => a == c
  | .b a, .b c => a == c
  | .null, .null => true
  | .arr xs, .arr ys => beqJList xs ys
  | .obj xs, .obj ys => beqJObj xs ys
  | _, _ => false

def beqJList : List JVal → List JVal → Bool
  | [], [] => true
  | x :: xs, y :: ys => JVal.beq x y && beqJList xs ys
  | _, _ => false

def beqJObj : List (String × JVal) → List (String × JVal) → Bool
  | [], [] => true
  | (k1, v1) :: xs, (k2, v2) :: ys => k1 == k2 && JVal.beq v1 v2 && beqJObj xs ys
  | _, _ => false

end

mutual

def JVal.beq_refl : ∀ a : JVal, JVal.beq a a = true
  | .s _ => by simp [JVal.beq]
  | .i _ => by simp [JVal.beq]
  | .b _ => by simp [JVal.beq]
  | .null => by simp [JVal.beq]
  | .arr xs => by simp [JVal.beq, beqJList_refl xs]
  | .obj xs => by simp [JVal.beq, beqJObj_refl xs]

def beqJList_refl : ∀ xs : List JVal, beqJList xs xs = true
  | [] => by simp [beqJList]
  | x :: xs => by simp [beqJList, JVal.beq_refl x, beqJList_refl xs]

def beqJObj_refl : ∀ xs : List (String × JVal), beqJObj xs xs = true
  | [] => by simp [beqJObj]
  | (k, v) :: xs => by simp [beqJObj, JVal.beq_refl v, beqJObj_refl xs]

end

mutual

def JVal.beq_sound : ∀ a c : JVal, JVal.beq a c = true → a = c
  | .s _, .s _ => by simp [JVal.beq]
  | .i _, .i _ => by simp [JVal.beq]
  | .b _, .b _ => by simp [JVal.beq]
  | .null, .null => by simp [JVal.beq]
  | .arr xs, .arr ys => by
      intro h
      simp only [JVal.beq] at h
      simp [beqJList_sound xs ys h]
  | .obj xs, .obj ys => by
      intro h
      simp only [JVal.beq] at h
      simp [beqJObj_sound xs ys h]
  | .s _, .i _ => by simp [JVal.beq]
  | .s _, .b _ => by simp [JVal.beq]
  | .s _, .null => by simp [JVal.beq]
  | .s _, .arr _ => by simp [JVal.beq]
  | .s _, .obj _ => by simp [JVal.beq]
  | .i _, .s _ => by simp [JVal.beq]
  | .i _, .b _ => by simp [JVal.beq]
  | .i _, .null => by simp [JVal.beq]
  | .i _, .arr _ => by simp [JVal.beq]
  | .i _, .obj _ => by simp [JVal.beq]
  | .b _, .s _ => by simp [JVal.beq]
  | .b _, .i _ => by simp [JVal.beq]
  | .b _, .null => by simp [JVal.beq]
  | .b _, .arr _ => by simp [JVal.beq]
  | .b _, .obj _ => by simp [JVal.beq]
  | .null, .s _ => by simp [JVal.beq]
  | .null, .i _ => by simp [JVal.beq]
  | .null, .b _ => by simp [JVal.beq]
  | .null, .arr _ => by simp [JVal.beq]
  | .null, .obj _ => by simp [JVal.beq]
  | .arr _, .s _ => by simp [JVal.beq]
  | .arr _, .i _ => by simp [JVal.beq]
  | .arr _, .b _ => by simp [JVal.beq]
  | .arr _, .null => by simp [JVal.beq]
  | .arr _, .obj _ => by simp [JVal.beq]
  | .obj _, .s _ => by simp [JVal.beq]
  | .obj _, .i _ => by simp [JVal.beq]
  | .obj _, .b _ => by simp [JVal.beq]
  | .obj _, .null => by simp [JVal.beq]
  | .obj _, .arr _ => by simp [JVal.beq]

def beqJList_sound : ∀ xs ys : List JVal, beqJList xs ys = true → xs = ys
  | [], [] => by simp
  | [], _ :: _ => by simp [beqJList]
  | _ :: _, [] => by simp [beqJList]
  | x :: xs, y :: ys => by
      intro h
      simp only [beqJList, Bool.and_eq_true] at h
      simp [JVal.beq_sound x y h.1, beqJList_sound xs ys h.2]

def beqJObj_sound : ∀ xs ys : List (String × JVal), beqJObj xs ys = true → xs = ys
  | [], [] => by simp
  | [], _ :: _ => by simp [beqJObj]
  | _ :: _, [] => by simp [beqJObj]
  | (k1, v1) :: xs, (k2, v2) :: ys => by
      intro h
      simp only [beqJObj, Bool.and_eq_true] at h
      obtain ⟨⟨hk, hv⟩, ht⟩ := h
      simp only [beq_iff_eq] at hk
      simp [hk, JVal.beq_sound v1 v2 hv, beqJObj_sound xs ys ht]

end

instance : DecidableEq JVal := fun a c =>
  if h : JVal.beq a c = true then
    .isTrue (JVal.beq_sound a c h)
  else
    .isFalse (fun he => h (he ▸ JVal.beq_refl a))

/-- Python dict lookup (d.get(k)): first binding wins; bindings are unique in
all dicts built by the embedded code. -/
def jGet (o : JObj) (k : String) : Option JVal :=
  match o with
  | [] => none
  | (k1, v) :: tl => if k1 = k then some v else jGet tl k

/-! ## Type descriptors (inputs of SchemaTranslator.resolve_type) -/

/-- A literal value appearing in typing.Literal brackets. -/
inductive Lit where
  | s (v : String)
  | i (v : Int)
  | b (v : Bool)
deriving DecidableEq

/-- The Python builtin class name of a literal value (type(v).__name__). -/
def Lit.clsName : Lit → String
  | .s _ => "str"
  | .i _ => "int"
  | .b _ => "bool"

def Lit.toJVal : Lit → JVal
  | .s v => .s v
  | .i v => .i v
  | .b v => .b v

/-- One metadata item of an Annotated wrapper: a string (a description
candidate), the typing.Required marker, or anything else. -/
inductive MetaItem where
  | strMeta (v : String)
  | requiredMarker
  | otherMeta
deriving DecidableEq

/-- A runtime Python value used as a default (parameter default or class
attribute). noneV is the Python None value, distinct from the absent
inspect.Parameter.empty sentinel which is modelled as Option.none around Val. -/
inductive Val where
  | noneV
  | strV (v : String)
  | intV (v : Int)
  | boolV (v : Bool)
deriving DecidableEq

def Val.toJVal : Val → JVal
  | .noneV => .null
  | .strV v => .s v
  | .intV v => .i v
  | .boolV v => .b v

/-- A Python type descriptor as seen by resolve_type. Nominal classes are
referenced by name so that cyclically recursive class declarations are
expressible; their declarations live in an environment. genericAlias models a
subscripted builtin generic such as dict[str, int] (which has a __name__ but is
not a class object), and noneObj models the None value itself (returned by
hints.get for a missing key). -/
inductive PyType where
  | annotated (base : PyType) (metadata : List MetaItem)
  | literal (vals : List Lit)
  | cls (name : String)
  | genericAlias (name : String)
  | noneObj
deriving DecidableEq

/-- What getattr(py_type, "__name__", str(py_type)) yields. str(None) is
"None"; the annotated and literal constructors are always unwrapped before this
is consulted, so their values are irrelevant to every modelled path. -/
def PyType.pyName : PyType → String
  | .annotated _ _ => "Annotated"
  | .literal _ => "Literal"
  | .cls n => n
  | .genericAlias n => n
  | .noneObj => "None"

/-- inspect.isclass: true exactly for class objects; a subscripted generic
alias and the None value are not class objects. -/
def PyType.isClassObj : PyType → Bool
  | .cls _ => true
  | _ => false

/-- The declaration of a nominal class: whether it is a dict subclass, its
get_type_hints result (none models get_type_hints raising, with the exception
text in hintsErrMsg), and its class attribute values (getattr defaults). -/
structure ClassDecl where
  isDictSubclass : Bool := false
  hints : Option (List (String × PyType)) := some []
  hintsErrMsg : String := ""
  attrs : List (String × Val) := []

/-- Environment mapping a class name to its declaration. -/
def Env := String → ClassDecl

/-! ## sdk/base.py constants -/

def MAX_NESTING_DEPTH : Nat := 3

/-- A key of PYTHON_TO_SYSTEM_MAP: every key is a string except the last
entry, whose key is the NoneType class object itself (type(None)). -/
inductive MapKey where
  | name (s : String)
  | noneTypeClass
deriving DecidableEq

/-- PYTHON_TO_SYSTEM_MAP from sdk/base.py, keys in source order. The final
entry is keyed by the class object type(None), not by a string. -/
def PYTHON_TO_SYSTEM_MAP : List (MapKey × String) :=
  [(.name "str", "string"),
   (.name "int", "number"),
   (.name "float", "number"),
   (.name "bool", "boolean"),
   (.name "list", "array"),
   (.name "bytes", "blob"),
   (.noneTypeClass, "null")]

/-- PYTHON_TO_SYSTEM_MAP.get(py_type_name): the lookup key is always the
string __name__, so it can only ever match the string-keyed entries. -/
def systemMapGet (k : String) : Option String :=
  (PYTHON_TO_SYSTEM_MAP.find? (fun e => e.1 == MapKey.name k)).map (·.2)

/-! ## SchemaTranslator.resolve_type (core/translator.py) -/

/-- The depth-ceiling error text (translator.py line 18). -/
def depthErrMsg : String := "嵌套过深(>" ++ toString MAX_NESTING_DEPTH ++ "层)"

/-- The Invalid node returned when depth exceeds the ceiling. -/
def depthInvalidNode : JObj :=
  [("type", JVal.s "INVALID"), ("error", JVal.s depthErrMsg)]

/-- Truthiness of prop_res.get("required") for the values the translator can
store there (a bool or an absent key). -/
def requiredTruthy (o : JObj) : Bool :=
  match jGet o "required" with
  | some (JVal.b true) => true
  | _ => false

/-- del prop_res["required"] (guarded by the key being present). -/
def delRequired (o : JObj) : JObj :=
  o.filter (fun kv => kv.1 ≠ "required")

/-- The Invalid node refusing a direct dict type (translator.py line 68). -/
def dictInvalidNode : JObj :=
  [("type", JVal.s "INVALID"), ("error", JVal.s "禁止直接使用 dict")]

/-- The Invalid node for a class whose get_type_hints call raised
(translator.py line 96). -/
def clsFailNode (n msg : String) : JObj :=
  [("type", JVal.s "INVALID"),
   ("error", JVal.s ("解析类 " ++ n ++ " 失败: " ++ msg))]

/-- Step 1 of resolve_type (translator.py lines 24 to 36): unwrap an Annotated
wrapper, take a leading string metadata item as the description, and mark
required iff any metadata item is the Required marker. -/
def stepUnwrap (py_type0 : PyType) : PyType × Bool × String :=
  match py_type0 with
  | .annotated base metadata =>
      let description :=
        match metadata with
        | .strMeta v :: _ => v
        | _ => ""
      (base, metadata.contains .requiredMarker, description)
  | t => (t, false, "")

/-- Step 2 of resolve_type (translator.py lines 38 to 42): capture Literal
values and replace the type by the class of the first literal (str when the
literal list is empty). -/
def stepDelit (py_type1 : PyType) : PyType × Option (List Lit) :=
  match py_type1 with
  | .literal vals =>
      (match vals with
       | v :: _ => (.cls v.clsName, some vals)
       | [] => (.cls "str", some []))
  | t => (t, none)

/-- The enum entry of the schema node: present only when the captured literal
list is truthy (non-empty). -/
def enumPart : Option (List Lit) → JObj
  | some (v :: vs) => [("enum", JVal.arr ((v :: vs).map Lit.toJVal))]
  | _ => []

/-- The default entry of the schema node: present only when the incoming
default is neither the empty sentinel (Option.none) nor the Python None. -/
def defaultPart : Option Val → JObj
  | some v => if v = Val.noneV then [] else [("default", v.toJVal)]
  | none => []

/-- Steps 4 and 5 of resolve_type (translator.py lines 48 to 63): the base
schema node, with required present only at depth 0. -/
def baseSchema (system_type : String) (depth : Nat) (is_required : Bool)
    (description : String) (enum_values : Option (List Lit))
    (default_val : Option Val) : JObj :=
  [("type", JVal.s system_type), ("description", JVal.s description)]
  ++ (if depth = 0 then [("required", JVal.b is_required)] else [])
  ++ enumPart enum_values
  ++ defaultPart default_val

/-- The properties and required_fields entries appended for a nominal class
(translator.py lines 70 to 94), taking the already-resolved fields in
declaration order: a field whose resolved node carries a truthy required flag
joins required_fields and has that flag deleted; required_fields is stored
only when truthy (non-empty). -/
def objExtension (resolved : List (String × JObj)) : JObj :=
  let required_fields := (resolved.filter (fun r => requiredTruthy r.2)).map (·.1)
  let properties := resolved.map (fun r =>
    (r.1, JVal.obj (if requiredTruthy r.2 then delRequired r.2 else r.2)))
  [("properties", JVal.obj properties)]
  ++ (if required_fields.isEmpty then []
      else [("required_fields", JVal.arr (required_fields.map JVal.s))])

/-- One unfolding of resolve_type, with next standing for the recursive calls
made at depth+1 into class fields. Mirrors translator.py lines 20 to 98; the
accumulation loop over class fields (lines 75 to 89) is rendered in
objExtension as a map for the properties and a filter for required_fields,
preserving its order and content exactly. -/
def resolveStep (env : Env) (next : Nat → PyType → Option Val → JObj)
    (depth : Nat) (py_type0 : PyType) (default_val : Option Val) : JObj :=
  let unwrapped := stepUnwrap py_type0
  let py_type1 := unwrapped.1
  let is_required := unwrapped.2.1
  let description := unwrapped.2.2
  let delit := stepDelit py_type1
  let py_type := delit.1
  let enum_values := delit.2
  -- 3. Name normalisation and map lookup, defaulting to object.
  let system_type := (systemMapGet py_type.pyName).getD "object"
  let schema := baseSchema system_type depth is_required description enum_values default_val
  -- 6. Nominal classes resolved as object: a dict subclass is refused, a
  -- failing get_type_hints yields Invalid, otherwise every declared field is
  -- resolved at depth+1 with its own class-attribute default.
  if system_type = "object" ∧ py_type.isClassObj then
    match py_type with
    | .cls n =>
        let decl := env n
        if decl.isDictSubclass then dictInvalidNode
        else
          match decl.hints with
          | none => clsFailNode n decl.hintsErrMsg
          | some fieldHints =>
              schema ++ objExtension (fieldHints.map (fun f =>
                (f.1, next (depth + 1) f.2 (decl.attrs.lookup f.1))))
    | _ => schema
  else schema

/-- resolve_type with the remaining recursion budget made explicit: fuel is
MAX_NESTING_DEPTH + 1 - depth, zero exactly when depth exceeds the ceiling. -/
def resolveGo (env : Env) : Nat → Nat → PyType → Option Val → JObj
  | 0 => fun _ _ _ => depthInvalidNode
  | fuel + 1 => resolveStep env (resolveGo env fuel)

/-- SchemaTranslator.resolve_type(py_type, depth, default_val). The guard
depth > MAX_NESTING_DEPTH of the source corresponds to a zero budget, and every
recursive call into a field runs at depth+1 with budget one less. -/
def resolve_type (env : Env) (py_type : PyType) (depth : Nat := 0)
    (default_val : Option Val := none) : JObj :=
  resolveGo env (MAX_NESTING_DEPTH + 1 - depth) depth py_type default_val

/-! ## CodeScanner._parse_to_meta (core/scanner.py, lines 334 to 492) -/

/-- One method parameter as _parse_to_meta sees it (self excluded): its name,
its entry in get_type_hints (none when unannotated, in which case hints.get
returns the None value), and its declared default (none models the
inspect.Parameter.empty sentinel). -/
structure ParamSpec where
  pname : String
  hint : Option PyType := none
  default : Option Val := none
deriving DecidableEq

/-- hints.get(p_name) and hints.get("return"): a missing key yields the Python
None value, which resolve_type then receives. -/
def hintOrNoneObj : Option PyType → PyType
  | some t => t
  | none => .noneObj

/-- One entry of _validation_warnings. The message texts carry the type and
the parameter name; surrounding punctuation of the source f-strings is not
reproduced since no modelled check reads it. -/
structure WarningRec where
  wtype : String
  message : String := ""
deriving DecidableEq

/-- The Action metadata dict produced by _parse_to_meta. -/
structure ActionRec where
  name : String
  category : String := "exec"
  description : String := ""
  locFile : String := ""
  locCls : String := ""
  inputSchema : JObj := []
  outputSchema : JObj := []
  warnings : List WarningRec := []
deriving DecidableEq

/-- The per-parameter annotation-style warnings (scanner.py lines 385 to 422):
only checked when the parameter has a type hint; a non-Annotated hint yields a
parameter_annotation warning, an Annotated hint whose first metadata item is
not a string yields a parameter_description warning. -/
def paramWarnings (p : ParamSpec) : List WarningRec :=
  match p.hint with
  | none => []
  | some t =>
      match t with
      | .annotated _ metas =>
          (match metas with
           | .strMeta _ :: _ => []
           | _ => [{ wtype := "parameter_description",
                     message := "参数 " ++ p.pname ++ " 的 Annotated 注解缺少描述" }])
      | _ => [{ wtype := "parameter_annotation",
                message := "参数 " ++ p.pname ++ " 应该使用 Annotated 格式" }]

/-- CodeScanner._parse_to_meta: builds the Action dict. Each parameter schema
is resolved at depth 0 with the declared default; the parameter name joins the
inputSchema-level required list exactly when the parameter has no default. -/
def parse_to_meta (env : Env) (m_name class_name relative_path : String)
    (params : List ParamSpec) (returnHint : Option PyType)
    (category docstring : String) (is_async : Bool) : ActionRec :=
  let properties := params.map (fun p =>
    (p.pname, JVal.obj (resolve_type env (hintOrNoneObj p.hint) 0 p.default)))
  let required := (params.filter (fun p => p.default.isNone)).map (·.pname)
  let validation_warnings :=
    (params.map paramWarnings).flatten
    ++ (if returnHint.isNone then [{ wtype := "return_annotation", message := "方法缺少返回类型注解" }] else [])
    ++ (if docstring = "" then [{ wtype := "docstring", message := "方法缺少文档字符串" }] else [])
    ++ (if is_async then [] else [{ wtype := "async_marker", message := "考虑使用 async 定义异步方法" }])
  { name := m_name,
    category := category,
    description := docstring,
    locFile := relative_path,
    locCls := class_name,
    inputSchema := [("type", JVal.s "object"),
                    ("properties", JVal.obj properties),
                    ("required", JVal.arr (required.map JVal.s))],
    outputSchema := resolve_type env (hintOrNoneObj returnHint) 0 none,
    warnings := validation_warnings }

/-! ## CacheManager and scan_tools_directory caching (core/scanner.py) -/

/-- The scan cache file: its own stat mtime and its parsed JSON content (none
models an unreadable file or a JSONDecodeError in load_cache). -/
structure CacheEntry where
  mtime : Nat
  content : Option (List ActionRec)
deriving DecidableEq

/-- CacheManager.is_cache_valid: false when no cache file exists; per scanned
file, a stat failure (modelled none) returns false, and any file mtime
strictly above the cache file mtime returns false. -/
def is_cache_valid (cache : Option CacheEntry) (fileMtimes : List (Option Nat)) : Bool :=
  match cache with
  | none => false
  | some c =>
      fileMtimes.all (fun mt =>
        match mt with
        | none => false
        | some m => decide (m ≤ c.mtime))

/-- CacheManager.load_cache: none when the file is missing or unparseable. -/
def load_cache (cache : Option CacheEntry) : Option (List ActionRec) :=
  match cache with
  | none => none
  | some c => c.content

/-- Result of one scan_tools_directory call: the returned Action list, how
many enrichment-pass module loads were performed, and the cache state after. -/
structure ScanOutcome where
  actions : List ActionRec
  enrichLoads : Nat
  cacheAfter : Option CacheEntry
deriving DecidableEq

/-- CodeScanner.scan_tools_directory cache logic (scanner.py lines 234 to
276). The AST plus enrichment recomputation is abstracted by the oracle inputs
freshActions (what a full scan of the directory yields) and freshLoads (the
module loads the enrichment pass performs, one per discovered signature);
newCacheMtime is the mtime of the rewritten cache file. On a cache hit with a
truthy loaded list the cached list is returned with no enrichment load;
otherwise the scan recomputes fully and, when caching is enabled, overwrites
the cache entry after success. -/
def scan_tools_directory (use_cache : Bool) (cache : Option CacheEntry)
    (fileMtimes : List (Option Nat)) (freshActions : List ActionRec)
    (freshLoads : Nat) (newCacheMtime : Nat) : ScanOutcome :=
  let fullScan : ScanOutcome :=
    { actions := freshActions, enrichLoads := freshLoads,
      cacheAfter := if use_cache then
          some { mtime := newCacheMtime, content := some freshActions }
        else cache }
  if use_cache && is_cache_valid cache fileMtimes then
    match load_cache cache with
    | some cachedActions =>
        if !cachedActions.isEmpty then
          { actions := cachedActions, enrichLoads := 0, cacheAfter := cache }
        else fullScan
    | none => fullScan
  else fullScan

/-! ## ProjectValidator (core/validator.py) and ManifestGenerator -/

/-- Python substring membership (sub in s). -/
def containsSub (s pat : String) : Bool := (s.splitOn pat).length != 1

/-- ProjectValidator._check_requirements: none models an absent
requirements.txt (the check is skipped and passes); otherwise every stripped
line must be empty, a comment, or carry one of the four version operators. -/
def check_requirements (reqLines : Option (List String)) : Bool :=
  match reqLines with
  | none => true
  | some lines =>
      lines.all (fun l0 =>
        let l := l0.trim
        l.isEmpty || l.startsWith "#" ||
          containsSub l "==" || containsSub l ">=" ||
          containsSub l "<=" || containsSub l "~=")

/-- The loop body of _recursive_validate_schema over the properties dict:
every property value must be a dict that validates one level deeper (the
source accumulates a valid flag over all properties; the conjunction is the
same value). A non-dict property value would raise in the source and cannot
occur in generated manifests; it is modelled as failing. -/
def validatePropsAll (next : JObj → Bool) : List (String × JVal) → Bool
  | [] => true
  | (_, v) :: tl =>
      (match v with
       | JVal.obj po => next po
       | _ => false) && validatePropsAll next tl

/-- One unfolding of _recursive_validate_schema (validator.py lines 283 to
339): type key mandatory; object requires properties and recurses into every
property; array requires items and recurses into it; any other type is a leaf
and passes. -/
def recValidateStep (next : JObj → Bool) (schema : JObj) : Bool :=
  match jGet schema "type" with
  | none => false
  | some t =>
      if t = JVal.s "object" then
        match jGet schema "properties" with
        | some (JVal.obj props) => validatePropsAll next props
        | _ => false
      else if t = JVal.s "array" then
        match jGet schema "items" with
        | some (JVal.obj it) => next it
        | _ => false
      else true

/-- _recursive_validate_schema with the recursion budget explicit: a zero
budget is the depth > MAX_NESTING_DEPTH interception, which fails. -/
def recValidateGo : Nat → JObj → Bool
  | 0 => fun _ => false
  | fuel + 1 => recValidateStep (recValidateGo fuel)

/-- ProjectValidator._recursive_validate_schema(schema, context, depth),
dropping the context string used only for error output. -/
def recursive_validate_schema (schema : JObj) (depth : Nat) : Bool :=
  recValidateGo (MAX_NESTING_DEPTH + 1 - depth) schema

/-- a.get("name", "") over one entry of the actions list (entries are always
dicts in generated manifests; a non-dict entry is modelled as the default). -/
def actionNameJ (a : JVal) : JVal :=
  match a with
  | .obj ad => (jGet ad "name").getD (.s "")
  | _ => .s ""

/-- The manifest side of _check_code_alignment: the list of action names read
from the persisted manifest (empty when the actions key is absent). -/
def manifestActionNames (m : JObj) : List JVal :=
  match jGet m "actions" with
  | some (.arr acts) => acts.map actionNameJ
  | _ => []

/-- Result of _check_code_alignment: the overall flag and the two reported
drift sets (Python set differences, modelled as order-preserving dedup). -/
structure AlignResult where
  valid : Bool
  missing_in_code : List JVal
  missing_in_manifest : List JVal
deriving DecidableEq

/-- ProjectValidator._check_code_alignment (validator.py lines 147 to 190):
drift_missing_in_code is set(manifest) - set(code), drift_missing_in_contract
is set(code) - set(manifest), and the check passes iff both are empty. -/
def check_code_alignment (manifestNames codeNames : List JVal) : AlignResult :=
  let missing_in_code := (manifestNames.filter (fun n => !decide (n ∈ codeNames))).dedup
  let missing_in_manifest := (codeNames.filter (fun n => !decide (n ∈ manifestNames))).dedup
  { valid := missing_in_code.isEmpty && missing_in_manifest.isEmpty,
    missing_in_code := missing_in_code,
    missing_in_manifest := missing_in_manifest }

/-- The four mandatory plugin_info fields, in source order. -/
def requiredInfoFields : List String := ["id", "name", "version", "description"]

/-- ProjectValidator._check_manifest_content (validator.py lines 192 to 249):
non-empty manifest, complete plugin_info, non-empty actions, and a recursive
schema validation of every action input and output schema starting at depth 0.
Shapes that would raise in the source (a non-dict plugin_info or schema value,
a non-list actions value) cannot occur in generated manifests and are modelled
as failing. -/
def check_manifest_content (m : JObj) : Bool :=
  if m.isEmpty then false
  else
    match jGet m "plugin_info" with
    | some (JVal.obj pinfo) =>
        if requiredInfoFields.all (fun f => (jGet pinfo f).isSome) then
          match jGet m "actions" with
          | some (JVal.arr acts) =>
              if acts.isEmpty then false
              else acts.all (fun a =>
                match a with
                | JVal.obj ad =>
                    (match jGet ad "inputSchema" with
                     | some (JVal.obj sc) => recursive_validate_schema sc 0
                     | some _ => false
                     | none => true) &&
                    (match jGet ad "outputSchema" with
                     | some (JVal.obj sc) => recursive_validate_schema sc 0
                     | some _ => false
                     | none => true)
                | _ => false)
          | _ => false
        else false
    | _ => false

/-- validate_actions (core/annotation_validator.py lines 66 to 92 and 144):
collects one error per parameter_annotation or parameter_description warning
attached to any scanned action. -/
def validate_actions (actions : List ActionRec) : List String :=
  actions.foldl (fun errors a =>
    errors ++ ((a.warnings.filter (fun w =>
        w.wtype == "parameter_annotation" || w.wtype == "parameter_description")).map
      (fun w => "Action " ++ a.name ++ ": " ++ w.message))) []

/-- Result of check_all: the returned flag and, for auditability, which
sub-checks were reached before returning. -/
structure AuditOutcome where
  passed : Bool
  ranChecks : List String
deriving DecidableEq

/-- ProjectValidator.check_all (validator.py lines 30 to 76). The inputs are
the observable facts the sub-checks consume: the security scan findings (only
printed, never recorded in has_error), the requirements.txt lines, the parsed
manifest.yaml (none when the file is missing or fails to parse, both of which
return False immediately), and the fresh scan result used by the alignment and
annotation sub-checks. -/
def check_all (_securityWarnings : List String) (reqLines : Option (List String))
    (manifest : Option JObj) (codeActions : List ActionRec) : AuditOutcome :=
  let hasErrorAfterReq := !check_requirements reqLines
  match manifest with
  | none =>
      { passed := false, ranChecks := ["security", "requirements"] }
  | some m =>
      let alignOk := (check_code_alignment (manifestActionNames m)
        (codeActions.map (fun a => JVal.s a.name))).valid
      let contentOk := check_manifest_content m
      let annotOk := (validate_actions codeActions).isEmpty
      { passed := !(hasErrorAfterReq || !alignOk || !contentOk || !annotOk),
        ranChecks := ["security", "requirements", "alignment", "schema_content",
                      "annotations"] }

/-- One cleaned action entry of _build_manifest_data (manifest_generator.py
lines 69 to 79). -/
def cleanedAction (a : ActionRec) : JVal :=
  JVal.obj [("name", JVal.s a.name),
            ("category", JVal.s a.category),
            ("description", JVal.s a.description),
            ("location", JVal.obj [("file", JVal.s a.locFile), ("class", JVal.s a.locCls)]),
            ("inputSchema", JVal.obj a.inputSchema),
            ("outputSchema", JVal.obj a.outputSchema)]

/-- The default plugin_info values derived from the project directory name. -/
def defaultInfoVal (rootName : String) (f : String) : JVal :=
  if f = "id" then .s rootName
  else if f = "name" then .s rootName
  else if f = "version" then .s "0.1.0"
  else .s (rootName ++ " plugin")

/-- ManifestGenerator._build_manifest_data (manifest_generator.py lines 57 to
109): cleaned actions plus a plugin_info block merged field by field from an
existing manifest when one exists and parses (existing is none when the file
is missing or unreadable). -/
def build_manifest_data (actions : List ActionRec) (rootName : String)
    (existing : Option JObj) : JObj :=
  let plugin_info :=
    match existing with
    | some ex =>
        (match jGet ex "plugin_info" with
         | some (JVal.obj pinfo) =>
             requiredInfoFields.map (fun f => (f, (jGet pinfo f).getD (defaultInfoVal rootName f)))
         | _ => requiredInfoFields.map (fun f => (f, defaultInfoVal rootName f)))
    | none => requiredInfoFields.map (fun f => (f, defaultInfoVal rootName f))
  [("plugin_info", JVal.obj plugin_info),
   ("actions", JVal.arr (actions.map cleanedAction))]

/-! ## RealtimeCollector (sdk/collector.py), ResourcePolicy (sdk/policy.py)
and the PluginRuntime.execute generator branch (runtime.py lines 65 to 82) -/

/-- A produced data row: an identity payload plus the value that
ResourcePolicy.estimate_row_size reports for it (the sys.getsizeof arithmetic
of the source is abstracted as this recorded estimate). -/
structure Row where
  rid : Nat := 0
  size : Nat
deriving DecidableEq

def estimate_row_size (r : Row) : Nat := r.size

/-- ResourcePolicy (sdk/policy.py): both limits are read from environment
variables at class initialisation, with defaults 5 * 1024 * 1024 bytes and
100000 rows. The int parse of the environment string is abstracted as the
numeric environment value. -/
structure ResourcePolicy where
  AUTO_SPILL_THRESHOLD_BYTES : Nat
  ROW_GROUP_SIZE : Nat
deriving DecidableEq

def ResourcePolicy.ofEnv (getenv : String → Option Nat) : ResourcePolicy :=
  { AUTO_SPILL_THRESHOLD_BYTES := (getenv "DFX_MEMORY_THRESHOLD_BYTES").getD (5 * 1024 * 1024),
    ROW_GROUP_SIZE := (getenv "DFX_ROW_GROUP_SIZE").getD 100000 }

/-- The external columnar store: the batches saved so far (save_temp_batch
appends one and returns a fresh part URI) and the recorded merge_parts calls. -/
structure StorageState where
  batches : List (List Row) := []
  mergedCalls : List (List String) := []
deriving DecidableEq

def save_temp_batch (st : StorageState) (rows : List Row) : StorageState × String :=
  ({ st with batches := st.batches ++ [rows] }, "part_" ++ toString st.batches.length)

def merge_parts (st : StorageState) (parts : List String) (target : String) :
    StorageState × String :=
  ({ st with mergedCalls := st.mergedCalls ++ [parts] }, "merged_" ++ target)

/-- RealtimeCollector state (collector.py lines 6 to 13). -/
structure RealtimeCollector where
  buffer : List Row := []
  current_buffer_bytes : Nat := 0
  spilled_parts : List String := []
  is_active : Bool := false
deriving DecidableEq

/-- RealtimeCollector._spill_to_disk (collector.py lines 26 to 47): no-op on
an empty buffer; otherwise save the buffered rows as one part, record its URI,
and reset buffer and byte total. The SPILL event emission has no effect on any
modelled state. -/
def spill_to_disk (c : RealtimeCollector) (st : StorageState) :
    RealtimeCollector × StorageState :=
  if c.buffer.isEmpty then (c, st)
  else
    let saved := save_temp_batch st c.buffer
    ({ c with buffer := [], current_buffer_bytes := 0,
              spilled_parts := c.spilled_parts ++ [saved.2] }, saved.1)

/-- RealtimeCollector.add (collector.py lines 15 to 24): append the row, add
its estimated size, mark active, then spill when the byte total reaches
AUTO_SPILL_THRESHOLD_BYTES or the row count reaches ROW_GROUP_SIZE. -/
def RealtimeCollector.add (p : ResourcePolicy) (c : RealtimeCollector)
    (st : StorageState) (row : Row) : RealtimeCollector × StorageState :=
  let c1 : RealtimeCollector :=
    { buffer := c.buffer ++ [row],
      current_buffer_bytes := c.current_buffer_bytes + estimate_row_size row,
      spilled_parts := c.spilled_parts,
      is_active := true }
  if p.AUTO_SPILL_THRESHOLD_BYTES ≤ c1.current_buffer_bytes ∨
      p.ROW_GROUP_SIZE ≤ c1.buffer.length then
    spill_to_disk c1 st
  else (c1, st)

/-- The value get_result returns: None for a never-used collector, the literal
empty list of the final return, or the merged-reference dict carried as its
URI and its metrics.total_parts count. -/
inductive CollectResult where
  | noneResult
  | rows (rs : List Row)
  | ref (uri : String) (total_parts : Nat)
deriving DecidableEq

/-- RealtimeCollector.get_result (collector.py lines 49 to 77): inactive
collectors return None; when any part was spilled or any rows remain buffered,
the residual buffer is spilled and a single reference merging all parts is
returned with total_parts = number of parts after that final spill; the
remaining branch returns the empty list. -/
def RealtimeCollector.get_result (c : RealtimeCollector) (st : StorageState)
    (target : String) : CollectResult × StorageState :=
  if !c.is_active then (.noneResult, st)
  else if !c.spilled_parts.isEmpty || !c.buffer.isEmpty then
    let spilled := if !c.buffer.isEmpty then spill_to_disk c st else (c, st)
    let c1 := spilled.1
    let merged := merge_parts spilled.2 c1.spilled_parts ("final_" ++ target)
    (.ref merged.2 c1.spilled_parts.length, merged.1)
  else (.rows [], st)

/-- The row-consumption loop of PluginRuntime.execute (runtime.py lines 71 to
79): one collector.add per produced row. The per-row cooperative cancellation
check raises only when an externally set flag is observed; no claim concerns
cancellation, so the flag is modelled as never set. -/
def consume_rows (p : ResourcePolicy) (c : RealtimeCollector) (st : StorageState)
    (rows : List Row) : RealtimeCollector × StorageState :=
  rows.foldl (fun acc row => RealtimeCollector.add p acc.1 acc.2 row) (c, st)

/-- What the invoked handler produced: an eager value or a generator of rows. -/
inductive PyResult where
  | value (v : JVal)
  | genRows (rows : List Row)

/-- The dispatch result: a plain value returned as-is, or the collector
aggregate for a generator result. -/
inductive ExecOutcome where
  | plain (v : JVal)
  | collected (r : CollectResult)
deriving DecidableEq

/-- PluginRuntime.execute result handling (runtime.py lines 65 to 82):
non-generator results bypass the collector; generator results are consumed row
by row into a fresh collector, and the collector aggregate is returned. -/
def execute (p : ResourcePolicy) (res : PyResult) (st : StorageState)
    (target : String) : ExecOutcome × StorageState :=
  match res with
  | .value v => (.plain v, st)
  | .genRows rows =>
      let fin := consume_rows p {} st rows
      let got := RealtimeCollector.get_result fin.1 fin.2 target
      (.collected got.1, got.2)

/-! ## Concrete instances used in closed evaluations -/

/-- hasRequiredMarker t is the is_required flag computed by step 1 for the
original (possibly wrapped) descriptor. -/
def hasRequiredMarker : PyType → Bool
  | .annotated _ metas => metas.contains .requiredMarker
  | _ => false

/-- The value that resolve_type stores under default for a given incoming
default argument: absent for the empty sentinel and for Python None. -/
def storedDefault : Option Val → Option JVal
  | some v => if v = Val.noneV then none else some v.toJVal
  | none => none

/-- Navigate to the schema of one property of an Object node. -/
def childSchema (s : JObj) (field : String) : JObj :=
  match jGet s "properties" with
  | some (JVal.obj props) =>
      (match jGet props field with
       | some (JVal.obj child) => child
       | _ => [])
  | _ => []

/-- The names stored in the inputSchema-level required list of an Action. -/
def inputRequiredNames (a : ActionRec) : List JVal :=
  match jGet a.inputSchema "required" with
  | some (JVal.arr l) => l
  | _ => []

/-- An environment where every class has no dict base, no fields and no
attribute defaults (this is also what NoneType looks like to get_type_hints). -/
def envEmpty : Env := fun _ => {}

/-- A cyclically recursive nominal declaration: every class, in particular
Node, has one field child whose type is again the class Node. -/
def envCycle : Env := fun _ => { hints := some [("child", PyType.cls "Node")] }

/-- Outer has one field inner of class Inner; Inner has one field x of type
str; no field has a default value. -/
def envNested : Env := fun n =>
  if n = "Outer" then { hints := some [("inner", PyType.cls "Inner")] }
  else if n = "Inner" then { hints := some [("x", PyType.cls "str")] }
  else {}

/-- An environment where the class named dict is the builtin dict. -/
def envDictCls : Env := fun n =>
  if n = "dict" then { isDictSubclass := true } else {}

/-- The flush policy of the streaming scenario: threshold 100 units, row-group
limit far away. -/
def pol100 : ResourcePolicy :=
  { AUTO_SPILL_THRESHOLD_BYTES := 100, ROW_GROUP_SIZE := 100000 }

/-- A row of estimated size 40 with identity n. -/
def srow (n : Nat) : Row := { rid := n, size := 40 }

/-- The five rows of size 40 of the streaming scenario. -/
def scenarioRows : List Row := [srow 1, srow 2, srow 3, srow 4, srow 5]

/-- The greet parameter list: one parameter name annotated as
Annotated[str, "desc"] with no default. -/
def greetParams : List ParamSpec :=
  [{ pname := "name", hint := some (.annotated (.cls "str") [.strMeta "desc"]),
     default := none }]

/-- The Action record scanned for greet(name: Annotated[str, "desc"]) ->
Annotated[str, "desc"]. -/
def greetAction : ActionRec :=
  parse_to_meta envEmpty "greet" "GreetPlugin" "tools/greet.py" greetParams
    (some (.annotated (.cls "str") [.strMeta "desc"])) "exec" "say hello" false

/-- A cache entry whose stored action list is empty (persisted by a scan of a
directory with no actions), with cache file mtime 10. -/
def cacheEmptyEntry : CacheEntry := { mtime := 10, content := some [] }

/-- A single fresh action named a. -/
def recA : ActionRec := { name := "a" }

/-- A never-spilled active collector holding one row of size 40. -/
def cDemo : RealtimeCollector :=
  { buffer := [srow 1], current_buffer_bytes := 40, spilled_parts := [],
    is_active := true }

/-- A policy whose row-group limit is 2 with the default byte threshold. -/
def polRG2 : ResourcePolicy :=
  { AUTO_SPILL_THRESHOLD_BYTES := 5242880, ROW_GROUP_SIZE := 2 }

/-- A cache entry holding one action, with cache file mtime 10. -/
def cacheGood : CacheEntry := { mtime := 10, content := some [recA] }

/-! ## Properties -/

theorem jGet_nil (k : String) : jGet [] k = none := rfl

theorem jGet_cons (k1 : String) (v : JVal) (tl : JObj) (k : String) :
    jGet ((k1, v) :: tl) k = if k1 = k then some v else jGet tl k := rfl

theorem jGet_append (a b : JObj) (k : String) :
    jGet (a ++ b) k = ((jGet a k).map some).getD (jGet b k) := by
  induction a with
  | nil => simp [jGet]
  | cons hd tl ih =>
    obtain ⟨k1, v⟩ := hd
    by_cases h : k1 = k
    · simp [jGet, h]
    · simp [jGet, h, ih]

theorem jGet_append_of_none (a b : JObj) (k : String) (h : jGet a k = none) :
    jGet (a ++ b) k = jGet b k := by
  simp [jGet_append, h]

theorem jGet_append_of_some (a b : JObj) (k : String) (v : JVal)
    (h : jGet a k = some v) : jGet (a ++ b) k = some v := by
  simp [jGet_append, h]

theorem jGet_enumPart_of_ne (ev : Option (List Lit)) (k : String) (h : k ≠ "enum") :
    jGet (enumPart ev) k = none := by
  match ev with
  | none => rfl
  | some [] => rfl
  | some (v :: vs) => simp [enumPart, jGet, Ne.symm h]

theorem jGet_defaultPart_of_ne (dv : Option Val) (k : String) (h : k ≠ "default") :
    jGet (defaultPart dv) k = none := by
  match dv with
  | none => rfl
  | some v =>
      simp only [defaultPart]
      split
      · rfl
      · simp [jGet, Ne.symm h]

theorem jGet_baseSchema_required (st : String) (depth : Nat) (r : Bool)
    (desc : String) (ev : Option (List Lit)) (dv : Option Val) (h : depth ≠ 0) :
    jGet (baseSchema st depth r desc ev dv) "required" = none := by
  simp [baseSchema, if_neg h, jGet_append, jGet,
    jGet_enumPart_of_ne ev "required" (by decide),
    jGet_defaultPart_of_ne dv "required" (by decide)]

theorem jGet_baseSchema_required_zero (st : String) (r : Bool)
    (desc : String) (ev : Option (List Lit)) (dv : Option Val) :
    jGet (baseSchema st 0 r desc ev dv) "required" = some (JVal.b r) := by
  simp [baseSchema, jGet_append, jGet]

theorem jGet_baseSchema_type (st : String) (depth : Nat) (r : Bool)
    (desc : String) (ev : Option (List Lit)) (dv : Option Val) :
    jGet (baseSchema st depth r desc ev dv) "type" = some (JVal.s st) := by
  simp [baseSchema, jGet_append, jGet]

theorem jGet_baseSchema_props (st : String) (depth : Nat) (r : Bool)
    (desc : String) (ev : Option (List Lit)) (dv : Option Val) :
    jGet (baseSchema st depth r desc ev dv) "properties" = none := by
  simp [baseSchema, jGet_append, jGet,
    jGet_enumPart_of_ne ev "properties" (by decide),
    jGet_defaultPart_of_ne dv "properties" (by decide)]
  split <;> simp [jGet]

theorem jGet_baseSchema_rf (st : String) (depth : Nat) (r : Bool)
    (desc : String) (ev : Option (List Lit)) (dv : Option Val) :
    jGet (baseSchema st depth r desc ev dv) "required_fields" = none := by
  simp [baseSchema, jGet_append, jGet,
    jGet_enumPart_of_ne ev "required_fields" (by decide),
    jGet_defaultPart_of_ne dv "required_fields" (by decide)]
  split <;> simp [jGet]

theorem jGet_baseSchema_default (st : String) (depth : Nat) (r : Bool)
    (desc : String) (ev : Option (List Lit)) (dv : Option Val) :
    jGet (baseSchema st depth r desc ev dv) "default" = jGet (defaultPart dv) "default" := by
  simp [baseSchema, jGet_append, jGet,
    jGet_enumPart_of_ne ev "default" (by decide)]
  split <;> simp [jGet]

theorem requiredTruthy_of_none (o : JObj) (h : jGet o "required" = none) :
    requiredTruthy o = false := by
  simp [requiredTruthy, h]

theorem jGet_objExtension_required (resolved : List (String × JObj)) :
    jGet (objExtension resolved) "required" = none := by
  simp only [objExtension]
  rw [jGet_append_of_none]
  · split <;> simp [jGet]
  · simp [jGet]

theorem objExtension_of_all_false (resolved : List (String × JObj))
    (h : ∀ r ∈ resolved, requiredTruthy r.2 = false) :
    objExtension resolved =
      [("properties", JVal.obj (resolved.map (fun r => (r.1, JVal.obj r.2))))] := by
  have hf : resolved.filter (fun r => requiredTruthy r.2) = [] := by
    rw [List.filter_eq_nil_iff]
    intro a ha
    simp [h a ha]
  have hm : resolved.map (fun r => (r.1, JVal.obj (if requiredTruthy r.2 then delRequired r.2 else r.2)))
      = resolved.map (fun r => (r.1, JVal.obj r.2)) := by
    apply List.map_congr_left
    intro a ha
    simp [h a ha]
  simp [objExtension, hf, hm]

theorem jGet_resolveStep_required (env : Env) (next : Nat → PyType → Option Val → JObj)
    (depth : Nat) (t : PyType) (d : Option Val) (h : depth ≠ 0) :
    jGet (resolveStep env next depth t d) "required" = none := by
  unfold resolveStep
  dsimp only
  split
  · split
    · split
      · simp [dictInvalidNode, jGet]
      · split
        · simp [clsFailNode, jGet]
        · rw [jGet_append_of_none _ _ _ (jGet_baseSchema_required _ _ _ _ _ _ h)]
          exact jGet_objExtension_required _
    · exact jGet_baseSchema_required _ _ _ _ _ _ h
  · exact jGet_baseSchema_required _ _ _ _ _ _ h

theorem jGet_resolveGo_required (env : Env) (fuel depth : Nat) (t : PyType)
    (d : Option Val) (h : depth ≠ 0) :
    jGet (resolveGo env fuel depth t d) "required" = none := by
  match fuel with
  | 0 => simp [resolveGo, depthInvalidNode, jGet]
  | fuel + 1 => exact jGet_resolveStep_required env _ depth t d h

theorem jGet_resolveStep_rf (env : Env) (fuel depth : Nat) (t : PyType) (d : Option Val) :
    jGet (resolveStep env (resolveGo env fuel) depth t d) "required_fields" = none := by
  unfold resolveStep
  dsimp only
  split
  · split
    · split
      · simp [dictInvalidNode, jGet]
      · split
        · simp [clsFailNode, jGet]
        · rw [jGet_append_of_none _ _ _ (jGet_baseSchema_rf _ _ _ _ _ _)]
          rw [objExtension_of_all_false]
          · simp [jGet]
          · intro r hr
            simp only [List.mem_map] at hr
            obtain ⟨f, hf, rfl⟩ := hr
            exact requiredTruthy_of_none _
              (jGet_resolveGo_required env fuel (depth + 1) f.2 _ (Nat.succ_ne_zero depth))
    · exact jGet_baseSchema_rf _ _ _ _ _ _
  · exact jGet_baseSchema_rf _ _ _ _ _ _

theorem jGet_resolveGo_rf (env : Env) (fuel depth : Nat) (t : PyType) (d : Option Val) :
    jGet (resolveGo env fuel depth t d) "required_fields" = none := by
  match fuel with
  | 0 => simp [resolveGo, depthInvalidNode, jGet]
  | fuel + 1 => exact jGet_resolveStep_rf env fuel depth t d

theorem jGet_resolve_type_required_fields (env : Env) (t : PyType) (depth : Nat)
    (d : Option Val) :
    jGet (resolve_type env t depth d) "required_fields" = none :=
  jGet_resolveGo_rf env _ depth t d

theorem jGet_resolve_type_required_deep (env : Env) (t : PyType) (depth : Nat)
    (d : Option Val) (h : depth ≠ 0) :
    jGet (resolve_type env t depth d) "required" = none :=
  jGet_resolveGo_required env _ depth t d h

theorem stepUnwrap_required (t : PyType) : (stepUnwrap t).2.1 = hasRequiredMarker t := by
  cases t <;> rfl

theorem jGet_resolveStep_type_invalid_or_required (env : Env)
    (next : Nat → PyType → Option Val → JObj) (t : PyType) (d : Option Val) :
    jGet (resolveStep env next 0 t d) "type" = some (JVal.s "INVALID") ∨
      jGet (resolveStep env next 0 t d) "required" = some (JVal.b (hasRequiredMarker t)) := by
  rw [← stepUnwrap_required]
  unfold resolveStep
  dsimp only
  split
  · split
    · split
      · exact Or.inl (by simp [dictInvalidNode, jGet])
      · split
        · exact Or.inl (by simp [clsFailNode, jGet])
        · exact Or.inr (by
            rw [jGet_append_of_some _ _ _ _ (jGet_baseSchema_required_zero _ _ _ _ _)])
    · exact Or.inr (jGet_baseSchema_required_zero _ _ _ _ _)
  · exact Or.inr (jGet_baseSchema_required_zero _ _ _ _ _)

theorem jGet_resolve_type_required_zero (env : Env) (t : PyType) (d : Option Val)
    (h : jGet (resolve_type env t 0 d) "type" ≠ some (JVal.s "INVALID")) :
    jGet (resolve_type env t 0 d) "required" = some (JVal.b (hasRequiredMarker t)) := by
  have := jGet_resolveStep_type_invalid_or_required env (resolveGo env 3) t d
  rcases this with hbad | hok
  · exact absurd hbad h
  · exact hok

theorem jGet_defaultPart_self (dv : Option Val) :
    jGet (defaultPart dv) "default" = storedDefault dv := by
  match dv with
  | none => rfl
  | some v =>
      simp only [defaultPart, storedDefault]
      split <;> simp [jGet]

theorem jGet_objExtension_other (resolved : List (String × JObj)) (k : String)
    (h1 : k ≠ "properties") (h2 : k ≠ "required_fields") :
    jGet (objExtension resolved) k = none := by
  simp only [objExtension]
  rw [jGet_append_of_none]
  · split
    · rfl
    · simp [jGet, Ne.symm h2]
  · simp [jGet, Ne.symm h1]

theorem jGet_resolveStep_type_invalid_or_default (env : Env)
    (next : Nat → PyType → Option Val → JObj) (depth : Nat) (t : PyType) (d : Option Val) :
    jGet (resolveStep env next depth t d) "type" = some (JVal.s "INVALID") ∨
      jGet (resolveStep env next depth t d) "default" = storedDefault d := by
  unfold resolveStep
  dsimp only
  split
  · split
    · split
      · exact Or.inl (by simp [dictInvalidNode, jGet])
      · split
        · exact Or.inl (by simp [clsFailNode, jGet])
        · refine Or.inr ?_
          rw [jGet_append, jGet_baseSchema_default, jGet_defaultPart_self]
          match hd : storedDefault d with
          | some v => rfl
          | none =>
              simp [jGet_objExtension_other _ "default" (by decide) (by decide)]
    · exact Or.inr (by rw [jGet_baseSchema_default, jGet_defaultPart_self])
  · exact Or.inr (by rw [jGet_baseSchema_default, jGet_defaultPart_self])

theorem jGet_resolve_type_default (env : Env) (t : PyType) (depth : Nat) (d : Option Val)
    (hd : depth ≤ MAX_NESTING_DEPTH)
    (h : jGet (resolve_type env t depth d) "type" ≠ some (JVal.s "INVALID")) :
    jGet (resolve_type env t depth d) "default" = storedDefault d := by
  unfold resolve_type at h ⊢
  have hf : ∃ k, MAX_NESTING_DEPTH + 1 - depth = k + 1 := ⟨MAX_NESTING_DEPTH - depth, by omega⟩
  obtain ⟨k, hk⟩ := hf
  rw [hk] at h ⊢
  rcases jGet_resolveStep_type_invalid_or_default env (resolveGo env k) depth t d with hbad | hok
  · exact absurd hbad h
  · exact hok

theorem resolve_cls_properties (env : Env) (n : String) (depth : Nat) (d : Option Val)
    (fields : List (String × PyType))
    (hd : depth ≤ MAX_NESTING_DEPTH) (hm : systemMapGet n = none)
    (hdict : (env n).isDictSubclass = false) (hh : (env n).hints = some fields) :
    jGet (resolve_type env (.cls n) depth d) "properties" =
      some (JVal.obj (fields.map (fun f =>
        (f.1, JVal.obj (resolve_type env f.2 (depth + 1) ((env n).attrs.lookup f.1)))))) := by
  unfold resolve_type
  obtain ⟨k, hk⟩ : ∃ k, MAX_NESTING_DEPTH + 1 - depth = k + 1 :=
    ⟨MAX_NESTING_DEPTH - depth, by omega⟩
  have hk2 : MAX_NESTING_DEPTH + 1 - (depth + 1) = k := by omega
  rw [hk, hk2]
  show jGet (resolveStep env (resolveGo env k) depth (.cls n) d) "properties" = _
  unfold resolveStep
  dsimp only [stepUnwrap, stepDelit, PyType.pyName, PyType.isClassObj]
  rw [hm]
  simp only [Option.getD_none, hdict, hh, and_self, if_true, Bool.false_eq_true, if_false]
  rw [jGet_append_of_none _ _ _ (jGet_baseSchema_props _ _ _ _ _ _)]
  rw [objExtension_of_all_false]
  · simp [jGet, List.map_map, Function.comp]
  · intro r hr
    simp only [List.mem_map] at hr
    obtain ⟨f, hf, rfl⟩ := hr
    exact requiredTruthy_of_none _
      (jGet_resolveGo_required env k (depth + 1) f.2 _ (Nat.succ_ne_zero depth))

theorem resolve_depth_exceeded (env : Env) (t : PyType) (depth : Nat) (d : Option Val)
    (h : MAX_NESTING_DEPTH < depth) :
    resolve_type env t depth d = [("type", JVal.s "INVALID"), ("error", JVal.s depthErrMsg)] := by
  unfold resolve_type
  have h0 : MAX_NESTING_DEPTH + 1 - depth = 0 := by omega
  rw [h0]
  rfl

theorem resolve_dict_cls (env : Env) (n : String) (depth : Nat) (d : Option Val)
    (hd : depth ≤ MAX_NESTING_DEPTH) (hm : systemMapGet n = none)
    (hdict : (env n).isDictSubclass = true) :
    resolve_type env (.cls n) depth d = dictInvalidNode := by
  unfold resolve_type
  obtain ⟨k, hk⟩ : ∃ k, MAX_NESTING_DEPTH + 1 - depth = k + 1 :=
    ⟨MAX_NESTING_DEPTH - depth, by omega⟩
  rw [hk]
  show resolveStep env (resolveGo env k) depth (.cls n) d = _
  unfold resolveStep
  dsimp only [stepUnwrap, stepDelit, PyType.pyName, PyType.isClassObj]
  rw [hm]
  simp only [Option.getD_none, and_self, if_true, hdict]

theorem resolve_dict_cls_annotated (env : Env) (n : String) (depth : Nat) (d : Option Val)
    (meta : List MetaItem)
    (hd : depth ≤ MAX_NESTING_DEPTH) (hm : systemMapGet n = none)
    (hdict : (env n).isDictSubclass = true) :
    resolve_type env (.annotated (.cls n) meta) depth d = dictInvalidNode := by
  unfold resolve_type
  obtain ⟨k, hk⟩ : ∃ k, MAX_NESTING_DEPTH + 1 - depth = k + 1 :=
    ⟨MAX_NESTING_DEPTH - depth, by omega⟩
  rw [hk]
  show resolveStep env (resolveGo env k) depth (.annotated (.cls n) meta) d = _
  unfold resolveStep
  dsimp only [stepUnwrap, stepDelit, PyType.pyName, PyType.isClassObj]
  rw [hm]
  simp only [Option.getD_none, and_self, if_true, hdict]

theorem resolve_generic_dict (env : Env) (depth : Nat) (d : Option Val)
    (hd : depth ≤ MAX_NESTING_DEPTH) :
    resolve_type env (.genericAlias "dict") depth d =
      baseSchema "object" depth false "" none d := by
  unfold resolve_type
  obtain ⟨k, hk⟩ : ∃ k, MAX_NESTING_DEPTH + 1 - depth = k + 1 :=
    ⟨MAX_NESTING_DEPTH - depth, by omega⟩
  rw [hk]
  show resolveStep env (resolveGo env k) depth (.genericAlias "dict") d = _
  unfold resolveStep
  dsimp only [stepUnwrap, stepDelit, PyType.pyName, PyType.isClassObj]
  rfl

theorem recValidate_object_no_props (schema : JObj) (fuel : Nat)
    (ht : jGet schema "type" = some (JVal.s "object"))
    (hp : jGet schema "properties" = none) :
    recValidateGo (fuel + 1) schema = false := by
  show recValidateStep (recValidateGo fuel) schema = false
  unfold recValidateStep
  rw [ht, hp]
  simp

theorem recursive_validate_no_props (schema : JObj)
    (ht : jGet schema "type" = some (JVal.s "object"))
    (hp : jGet schema "properties" = none) :
    recursive_validate_schema schema 0 = false :=
  recValidate_object_no_props schema 3 ht hp

theorem add_flush (p : ResourcePolicy) (c : RealtimeCollector) (st : StorageState) (row : Row)
    (h : p.AUTO_SPILL_THRESHOLD_BYTES ≤ c.current_buffer_bytes + estimate_row_size row ∨
         p.ROW_GROUP_SIZE ≤ c.buffer.length + 1) :
    (RealtimeCollector.add p c st row).1 =
      { buffer := [], current_buffer_bytes := 0,
        spilled_parts := c.spilled_parts ++ ["part_" ++ toString st.batches.length],
        is_active := true } ∧
    (RealtimeCollector.add p c st row).2.batches = st.batches ++ [c.buffer ++ [row]] := by
  have hcond : p.AUTO_SPILL_THRESHOLD_BYTES ≤ c.current_buffer_bytes + estimate_row_size row ∨
      p.ROW_GROUP_SIZE ≤ (c.buffer ++ [row]).length := by
    simpa using h
  have hne : (c.buffer ++ [row]).isEmpty = false := by
    cases c.buffer <;> rfl
  constructor
  · simp [RealtimeCollector.add, spill_to_disk, hne, save_temp_batch]
    rw [if_pos h]
  · simp [RealtimeCollector.add, spill_to_disk, hne, save_temp_batch]
    rw [if_pos h]

theorem add_no_flush (p : ResourcePolicy) (c : RealtimeCollector) (st : StorageState) (row : Row)
    (h : ¬ (p.AUTO_SPILL_THRESHOLD_BYTES ≤ c.current_buffer_bytes + estimate_row_size row ∨
            p.ROW_GROUP_SIZE ≤ c.buffer.length + 1)) :
    RealtimeCollector.add p c st row =
      ({ buffer := c.buffer ++ [row],
         current_buffer_bytes := c.current_buffer_bytes + estimate_row_size row,
         spilled_parts := c.spilled_parts, is_active := true }, st) := by
  have hcond : ¬ (p.AUTO_SPILL_THRESHOLD_BYTES ≤ c.current_buffer_bytes + estimate_row_size row ∨
      p.ROW_GROUP_SIZE ≤ (c.buffer ++ [row]).length) := by
    simpa using h
  unfold RealtimeCollector.add
  dsimp only
  rw [if_neg hcond]

theorem get_result_never_rows (c : RealtimeCollector) (st : StorageState) (target : String)
    (r : Row) (rs : List Row) :
    (RealtimeCollector.get_result c st target).1 ≠ CollectResult.rows (r :: rs) := by
  unfold RealtimeCollector.get_result
  split
  · simp
  · split
    · simp
    · simp

theorem get_result_residual (c : RealtimeCollector) (st : StorageState) (target : String)
    (ha : c.is_active = true) (hb : c.buffer ≠ []) :
    (RealtimeCollector.get_result c st target).1 =
      CollectResult.ref ("merged_final_" ++ target) (c.spilled_parts.length + 1) ∧
    (RealtimeCollector.get_result c st target).2.batches = st.batches ++ [c.buffer] := by
  have hne : c.buffer.isEmpty = false := by
    cases hc : c.buffer
    · exact absurd hc hb
    · rfl
  unfold RealtimeCollector.get_result
  simp [ha, hne, spill_to_disk, save_temp_batch, merge_parts]
  rw [← String.append_assoc]
  congr 1

theorem get_result_no_residual (c : RealtimeCollector) (st : StorageState) (target : String)
    (ha : c.is_active = true) (hb : c.buffer = []) (hp : c.spilled_parts ≠ []) :
    (RealtimeCollector.get_result c st target).1 =
      CollectResult.ref ("merged_final_" ++ target) c.spilled_parts.length ∧
    (RealtimeCollector.get_result c st target).2.batches = st.batches := by
  have hpe : c.spilled_parts.isEmpty = false := by
    cases hc : c.spilled_parts
    · exact absurd hc hp
    · rfl
  unfold RealtimeCollector.get_result
  simp [ha, hb, hpe, merge_parts]
  rw [← String.append_assoc]
  congr 1

theorem mem_missing_in_code (M C : List JVal) (n : JVal) :
    n ∈ (check_code_alignment M C).missing_in_code ↔ n ∈ M ∧ n ∉ C := by
  simp [check_code_alignment, List.mem_dedup, List.mem_filter]

theorem mem_missing_in_manifest (M C : List JVal) (n : JVal) :
    n ∈ (check_code_alignment M C).missing_in_manifest ↔ n ∈ C ∧ n ∉ M := by
  simp [check_code_alignment, List.mem_dedup, List.mem_filter]

theorem alignment_valid_iff (M C : List JVal) :
    (check_code_alignment M C).valid = true ↔
      ((∀ n ∈ M, n ∈ C) ∧ (∀ n ∈ C, n ∈ M)) := by
  simp [check_code_alignment, List.isEmpty_iff, List.dedup_eq_nil, List.filter_eq_nil_iff]

theorem manifestActionNames_build (recs : List ActionRec) (rootName : String)
    (existing : Option JObj) :
    manifestActionNames (build_manifest_data recs rootName existing) =
      recs.map (fun a => JVal.s a.name) := by
  simp [manifestActionNames, build_manifest_data, jGet, List.map_map]
  intro a _
  rfl

theorem alignment_self (L : List JVal) :
    check_code_alignment L L =
      { valid := true, missing_in_code := [], missing_in_manifest := [] } := by
  have hf : L.filter (fun n => !decide (n ∈ L)) = [] := by
    rw [List.filter_eq_nil_iff]
    intro a ha
    simp [ha]
  simp [check_code_alignment, hf]

theorem bool_not_or_chain (a b cc dd : Bool) :
    (!(!a || !b || !cc || !dd)) = (a && b && cc && dd) := by
  cases a <;> cases b <;> cases cc <;> cases dd <;> rfl

theorem is_cache_valid_iff (c : CacheEntry) (files : List (Option Nat)) :
    is_cache_valid (some c) files = true ↔
      ∀ mt ∈ files, ∃ m, mt = some m ∧ m ≤ c.mtime := by
  simp only [is_cache_valid, List.all_eq_true]
  constructor
  · intro h mt hm
    have := h mt hm
    match mt, this with
    | some m, hv => exact ⟨m, rfl, by simpa using hv⟩
  · intro h mt hm
    obtain ⟨m, rfl, hle⟩ := h mt hm
    simpa using hle

theorem scan_cache_hit (c : CacheEntry) (files : List (Option Nat))
    (fA : List ActionRec) (fL nm : Nat) (acts : List ActionRec)
    (hc : c.content = some acts) (hne : acts ≠ [])
    (hv : is_cache_valid (some c) files = true) :
    scan_tools_directory true (some c) files fA fL nm =
      { actions := acts, enrichLoads := 0, cacheAfter := some c } := by
  have hie : acts.isEmpty = false := by
    cases hx : acts
    · exact absurd hx hne
    · rfl
  unfold scan_tools_directory
  simp [hv, load_cache, hc, hie]

theorem scan_cache_miss (cache : Option CacheEntry) (files : List (Option Nat))
    (fA : List ActionRec) (fL nm : Nat)
    (hv : is_cache_valid cache files = false) :
    scan_tools_directory true cache files fA fL nm =
      { actions := fA, enrichLoads := fL,
        cacheAfter := some { mtime := nm, content := some fA } } := by
  unfold scan_tools_directory
  simp [hv]

theorem scan_cache_unusable (c : CacheEntry) (files : List (Option Nat))
    (fA : List ActionRec) (fL nm : Nat)
    (hc : c.content = none ∨ c.content = some []) :
    scan_tools_directory true (some c) files fA fL nm =
      { actions := fA, enrichLoads := fL,
        cacheAfter := some { mtime := nm, content := some fA } } := by
  unfold scan_tools_directory
  rcases hc with h | h <;>
    cases hv : is_cache_valid (some c) files <;> simp [hv, load_cache, h]

theorem parse_required_mem (env : Env) (m c' rp : String) (params : List ParamSpec)
    (rh : Option PyType) (cat doc : String) (ia : Bool) (n : String) :
    JVal.s n ∈ inputRequiredNames (parse_to_meta env m c' rp params rh cat doc ia) ↔
      ∃ p ∈ params, p.pname = n ∧ p.default = none := by
  simp [inputRequiredNames, parse_to_meta, jGet, List.mem_map, List.mem_filter,
    Option.isNone_iff_eq_none]
  constructor
  · rintro ⟨a, ⟨ha, hd⟩, rfl⟩
    exact ⟨a, ha, rfl, hd⟩
  · rintro ⟨p, hp, rfl, hd⟩
    exact ⟨p, ⟨hp, hd⟩, rfl⟩

/-- Claim C1: resolve_type invoked with depth strictly greater than the
ceiling 3 returns an Invalid node carrying the fixed non-empty depth error,
independently of the descriptor and environment (no further descent), and
resolve_type is total even on a cyclically recursive nominal declaration: the
self-referential class Node resolves to an object tree whose fourth nested
child is the Invalid depth node, because every field recursion runs at
depth+1. -/
theorem C1_depth_ceiling_termination :
    (∀ (env : Env) (t : PyType) (depth : Nat) (d : Option Val),
        MAX_NESTING_DEPTH < depth →
        resolve_type env t depth d =
          [("type", JVal.s "INVALID"), ("error", JVal.s depthErrMsg)]) ∧
    depthErrMsg ≠ "" ∧
    jGet (resolve_type envCycle (.cls "Node") 0 none) "type" = some (JVal.s "object") ∧
    jGet (childSchema (childSchema (childSchema (childSchema
        (resolve_type envCycle (.cls "Node") 0 none) "child") "child") "child") "child")
      "type" = some (JVal.s "INVALID") := by
  refine ⟨fun env t depth d h => resolve_depth_exceeded env t depth d h, ?_, ?_, ?_⟩
  · decide
  · decide
  · decide

/-- Claim C1 witness: the ceiling case applied at concrete depth 4. -/
theorem C1_depth_ceiling_termination_witness :
    MAX_NESTING_DEPTH < 4 ∧
    resolve_type envEmpty (.cls "A") 4 none =
      [("type", JVal.s "INVALID"), ("error", JVal.s depthErrMsg)] :=
  ⟨by decide, C1_depth_ceiling_termination.1 envEmpty (.cls "A") 4 none (by decide)⟩

/-- Claim C7: the closed primitive map sends str to string, int and float to
number, bool to boolean, list to array, bytes to blob; every other type name
resolves as a nominal Object. The null entry for the absence type exists in
PYTHON_TO_SYSTEM_MAP but is keyed by the NoneType class object while the
lookup uses the string name, so the None type actually resolves to object,
never null: the code contradicts its own map entry. -/
theorem C7_primitive_kind_map :
    systemMapGet "str" = some "string" ∧
    systemMapGet "int" = some "number" ∧
    systemMapGet "float" = some "number" ∧
    systemMapGet "bool" = some "boolean" ∧
    systemMapGet "list" = some "array" ∧
    systemMapGet "bytes" = some "blob" ∧
    (MapKey.noneTypeClass, "null") ∈ PYTHON_TO_SYSTEM_MAP ∧
    systemMapGet "NoneType" = none ∧
    jGet (resolve_type envEmpty (.cls "NoneType") 0 none) "type" = some (JVal.s "object") ∧
    jGet (resolve_type envEmpty (.cls "NoneType") 0 none) "type" ≠ some (JVal.s "null") ∧
    jGet (resolve_type envEmpty (.cls "MyStruct") 0 none) "type" = some (JVal.s "object") := by
  decide

/-- Claim C4 counterexample: the parameterized builtin map type dict[str,int]
(a generic alias, not a class object) used directly as a parameter type
resolves to an object node without any error, not to an Invalid node. -/
theorem C4_counterexample :
    jGet (resolve_type envEmpty (.genericAlias "dict") 0 none) "type" =
      some (JVal.s "object") ∧
    jGet (resolve_type envEmpty (.genericAlias "dict") 0 none) "type" ≠
      some (JVal.s "INVALID") ∧
    jGet (resolve_type envEmpty (.genericAlias "dict") 0 none) "error" = none := by
  decide

/-- Claim C4 amended: a bare builtin map class (dict or any dict subclass),
used directly or under an Annotated wrapper, resolves to Invalid with the
non-empty refusal error at every depth within the ceiling; a parameterized
generic map alias such as dict[str,int] is not a class object and instead
resolves to a kind object node with no properties, which is not Invalid but
fails the recursive schema well-formedness check. -/
theorem C4_raw_map_refusal :
    ("禁止直接使用 dict" : String) ≠ "" ∧
    (∀ (env : Env) (n : String) (depth : Nat) (d : Option Val) (meta : List MetaItem),
        depth ≤ MAX_NESTING_DEPTH → systemMapGet n = none →
        (env n).isDictSubclass = true →
        resolve_type env (.cls n) depth d = dictInvalidNode ∧
        resolve_type env (.annotated (.cls n) meta) depth d = dictInvalidNode) ∧
    (∀ (env : Env) (depth : Nat) (d : Option Val),
        depth ≤ MAX_NESTING_DEPTH →
        resolve_type env (.genericAlias "dict") depth d =
          baseSchema "object" depth false "" none d ∧
        jGet (resolve_type env (.genericAlias "dict") depth d) "properties" = none ∧
        recursive_validate_schema (resolve_type env (.genericAlias "dict") depth d) 0 =
          false) := by
  refine ⟨by decide, ?_, ?_⟩
  · intro env n depth d meta hd hm hdict
    exact ⟨resolve_dict_cls env n depth d hd hm hdict,
           resolve_dict_cls_annotated env n depth d meta hd hm hdict⟩
  · intro env depth d hd
    have he := resolve_generic_dict env depth d hd
    refine ⟨he, ?_, ?_⟩
    · rw [he]
      exact jGet_baseSchema_props _ _ _ _ _ _
    · rw [he]
      exact recursive_validate_no_props _ (jGet_baseSchema_type _ _ _ _ _ _)
        (jGet_baseSchema_props _ _ _ _ _ _)

/-- Claim C4 witness: the builtin dict class refused at depth 0, and the
parameterized alias failing well-formedness. -/
theorem C4_raw_map_refusal_witness :
    ((0 : Nat) ≤ MAX_NESTING_DEPTH ∧ systemMapGet "dict" = none ∧
      (envDictCls "dict").isDictSubclass = true) ∧
    resolve_type envDictCls (.cls "dict") 0 none = dictInvalidNode ∧
    recursive_validate_schema (resolve_type envDictCls (.genericAlias "dict") 0 none) 0 =
      false :=
  ⟨⟨by decide, by decide, by decide⟩,
   (C4_raw_map_refusal.2.1 envDictCls "dict" 0 none [] (by decide) (by decide) (by decide)).1,
   (C4_raw_map_refusal.2.2 envDictCls 0 none (by decide)).2.2⟩

/-- Claim C5 counterexample: in the nested declaration Outer with field inner
of class Inner, whose field x of type str has no default, the parent node of x
(the Inner node) carries no required_fields entry at all, and the x node
itself carries no required flag. -/
theorem C5_counterexample :
    jGet (childSchema (resolve_type envNested (.cls "Outer") 0 none) "inner")
      "required_fields" = none ∧
    jGet (childSchema (resolve_type envNested (.cls "Outer") 0 none) "inner")
      "required_fields" ≠ some (JVal.arr [JVal.s "x"]) ∧
    jGet (childSchema (childSchema (resolve_type envNested (.cls "Outer") 0 none) "inner")
      "x") "required" = none := by
  decide

/-- Claim C5 amended: every declared field of a nominal object is resolved
recursively at depth+1 with the class-attribute default of that field, and the
parent records a field in required_fields exactly when the recursive result
carries required true; but the required key is only emitted at depth 0, so no
recursive field result ever carries it and no node ever carries
required_fields — in particular a nested object field lacking a default does
not appear in any required_fields list. -/
theorem C5_required_fields :
    (∀ (env : Env) (n : String) (depth : Nat) (d : Option Val)
        (fields : List (String × PyType)),
        depth ≤ MAX_NESTING_DEPTH → systemMapGet n = none →
        (env n).isDictSubclass = false → (env n).hints = some fields →
        jGet (resolve_type env (.cls n) depth d) "properties" =
          some (JVal.obj (fields.map (fun f =>
            (f.1, JVal.obj (resolve_type env f.2 (depth + 1)
              ((env n).attrs.lookup f.1))))))) ∧
    (∀ (env : Env) (t : PyType) (depth : Nat) (d : Option Val),
        depth ≠ 0 → jGet (resolve_type env t depth d) "required" = none) ∧
    (∀ (env : Env) (t : PyType) (depth : Nat) (d : Option Val),
        jGet (resolve_type env t depth d) "required_fields" = none) :=
  ⟨resolve_cls_properties, jGet_resolve_type_required_deep,
   jGet_resolve_type_required_fields⟩

/-- Claim C5 witness: the field recursion applied to the Outer class and the
required-key absence applied at depth 1. -/
theorem C5_required_fields_witness :
    ((0 : Nat) ≤ MAX_NESTING_DEPTH ∧ systemMapGet "Outer" = none ∧
      (envNested "Outer").isDictSubclass = false ∧
      (envNested "Outer").hints = some [("inner", PyType.cls "Inner")]) ∧
    jGet (resolve_type envNested (.cls "Outer") 0 none) "properties" =
      some (JVal.obj (([("inner", PyType.cls "Inner")] : List (String × PyType)).map
        (fun f => (f.1, JVal.obj (resolve_type envNested f.2 (0 + 1)
          ((envNested "Outer").attrs.lookup f.1)))))) ∧
    jGet (resolve_type envNested (.cls "str") 1 none) "required" = none :=
  ⟨⟨by decide, by decide, by decide, by decide⟩,
   C5_required_fields.1 envNested "Outer" 0 none [("inner", PyType.cls "Inner")]
     (by decide) (by decide) (by decide) (by decide),
   C5_required_fields.2.1 envNested (.cls "str") 1 none (by decide)⟩

/-- Claim C3 counterexample: for greet(name: Annotated[str, "desc"]) with no
default, the node under inputSchema.properties.name carries required false,
not true (the scanner records the no-default parameter in the
inputSchema-level required list instead); and a declared default value of
Python None, which is not the no-value sentinel, is not copied into default. -/
theorem C3_counterexample :
    jGet (childSchema greetAction.inputSchema "name") "required" = some (JVal.b false) ∧
    jGet (childSchema greetAction.inputSchema "name") "required" ≠ some (JVal.b true) ∧
    childSchema greetAction.inputSchema "name" ≠
      [("type", JVal.s "string"), ("description", JVal.s "desc"),
       ("required", JVal.b true)] ∧
    jGet (childSchema (parse_to_meta envEmpty "g2" "G" "f.py"
        [{ pname := "x", hint := some (.cls "str"), default := some Val.noneV }]
        none "exec" "" false).inputSchema "x") "default" = none := by
  decide

/-- Claim C3 amended: a parameter name joins the inputSchema-level required
list exactly when the parameter declares no default; the required flag stored
on the property node itself (present at depth 0 on non-Invalid nodes) is true iff the
Annotated metadata carries the Required marker; a declared default is copied
as-is into the node only when it is neither the no-value sentinel nor Python
None; for greet, properties.name is the string node with required false while
inputSchema.required is exactly the list containing name. -/
theorem C3_required_and_defaults :
    (∀ (env : Env) (m c' rp : String) (params : List ParamSpec) (rh : Option PyType)
        (cat doc : String) (ia : Bool) (n : String),
        JVal.s n ∈ inputRequiredNames (parse_to_meta env m c' rp params rh cat doc ia) ↔
          ∃ p ∈ params, p.pname = n ∧ p.default = none) ∧
    (∀ (env : Env) (t : PyType) (d : Option Val),
        jGet (resolve_type env t 0 d) "type" ≠ some (JVal.s "INVALID") →
        jGet (resolve_type env t 0 d) "required" = some (JVal.b (hasRequiredMarker t))) ∧
    (∀ (env : Env) (t : PyType) (depth : Nat) (d : Option Val),
        depth ≤ MAX_NESTING_DEPTH →
        jGet (resolve_type env t depth d) "type" ≠ some (JVal.s "INVALID") →
        jGet (resolve_type env t depth d) "default" = storedDefault d) ∧
    childSchema greetAction.inputSchema "name" =
      [("type", JVal.s "string"), ("description", JVal.s "desc"),
       ("required", JVal.b false)] ∧
    jGet greetAction.inputSchema "required" = some (JVal.arr [JVal.s "name"]) :=
  ⟨parse_required_mem, jGet_resolve_type_required_zero, jGet_resolve_type_default,
   by decide, by decide⟩

/-- Claim C3 witness: the required flag and default copy applied to a str
parameter with a string default. -/
theorem C3_required_and_defaults_witness :
    ((0 : Nat) ≤ MAX_NESTING_DEPTH ∧
      jGet (resolve_type envEmpty (.cls "str") 0 (some (Val.strV "x"))) "type" ≠
        some (JVal.s "INVALID")) ∧
    jGet (resolve_type envEmpty (.cls "str") 0 (some (Val.strV "x"))) "required" =
      some (JVal.b (hasRequiredMarker (.cls "str"))) ∧
    jGet (resolve_type envEmpty (.cls "str") 0 (some (Val.strV "x"))) "default" =
      storedDefault (some (Val.strV "x")) :=
  ⟨⟨by decide, by decide⟩,
   C3_required_and_defaults.2.1 envEmpty (.cls "str") (some (Val.strV "x")) (by decide),
   C3_required_and_defaults.2.2.1 envEmpty (.cls "str") 0 (some (Val.strV "x"))
     (by decide) (by decide)⟩

/-- Claim C2 counterexample: a generator of a single row of size 40 against
threshold 100 never auto-flushes, yet at exhaustion the buffered row is not
returned directly: the residual buffer is flushed once and a merged reference
to that one part is returned. -/
theorem C2_counterexample :
    (execute pol100 (.genRows [srow 1]) {} "t").1 =
      .collected (.ref "merged_final_t" 1) ∧
    (execute pol100 (.genRows [srow 1]) {} "t").1 ≠ .collected (.rows [srow 1]) ∧
    (execute pol100 (.genRows [srow 1]) {} "t").2.batches = [[srow 1]] := by
  decide

/-- Claim C2 amended: each produced row is appended and its estimated size
added to the running total; a flush to the store occurs exactly when the total
reaches the threshold or the row count reaches the row-group limit, saving the
buffered rows as one part and resetting buffer and total; at sequence
exhaustion get_result never returns a non-empty row list directly: any
residual buffer is always flushed once more and a single reference merging all
flushed parts is returned, with total_parts counting them; the 5-rows-of-40
scenario against threshold 100 auto-flushes exactly once after the third row
and ends with a reference to 2 merged parts. -/
theorem C2_lazy_collection :
    (∀ (p : ResourcePolicy) (c : RealtimeCollector) (st : StorageState) (row : Row),
        p.AUTO_SPILL_THRESHOLD_BYTES ≤ c.current_buffer_bytes + estimate_row_size row ∨
          p.ROW_GROUP_SIZE ≤ c.buffer.length + 1 →
        (RealtimeCollector.add p c st row).1 =
          { buffer := [], current_buffer_bytes := 0,
            spilled_parts := c.spilled_parts ++ ["part_" ++ toString st.batches.length],
            is_active := true } ∧
        (RealtimeCollector.add p c st row).2.batches =
          st.batches ++ [c.buffer ++ [row]]) ∧
    (∀ (p : ResourcePolicy) (c : RealtimeCollector) (st : StorageState) (row : Row),
        ¬ (p.AUTO_SPILL_THRESHOLD_BYTES ≤ c.current_buffer_bytes + estimate_row_size row ∨
           p.ROW_GROUP_SIZE ≤ c.buffer.length + 1) →
        RealtimeCollector.add p c st row =
          ({ buffer := c.buffer ++ [row],
             current_buffer_bytes := c.current_buffer_bytes + estimate_row_size row,
             spilled_parts := c.spilled_parts, is_active := true }, st)) ∧
    (∀ (c : RealtimeCollector) (st : StorageState) (target : String) (r : Row)
        (rs : List Row),
        (RealtimeCollector.get_result c st target).1 ≠ CollectResult.rows (r :: rs)) ∧
    (∀ (c : RealtimeCollector) (st : StorageState) (target : String),
        c.is_active = true → c.buffer ≠ [] →
        (RealtimeCollector.get_result c st target).1 =
          CollectResult.ref ("merged_final_" ++ target) (c.spilled_parts.length + 1) ∧
        (RealtimeCollector.get_result c st target).2.batches =
          st.batches ++ [c.buffer]) ∧
    (∀ (c : RealtimeCollector) (st : StorageState) (target : String),
        c.is_active = true → c.buffer = [] → c.spilled_parts ≠ [] →
        (RealtimeCollector.get_result c st target).1 =
          CollectResult.ref ("merged_final_" ++ target) c.spilled_parts.length ∧
        (RealtimeCollector.get_result c st target).2.batches = st.batches) ∧
    (execute pol100 (.genRows scenarioRows) {} "t").1 =
      .collected (.ref "merged_final_t" 2) ∧
    (execute pol100 (.genRows scenarioRows) {} "t").2.batches =
      [[srow 1, srow 2, srow 3], [srow 4, srow 5]] :=
  ⟨add_flush, add_no_flush, get_result_never_rows, get_result_residual,
   get_result_no_residual, by decide, by decide⟩

/-- Claim C2 witness: the residual-flush case applied to an active collector
holding one buffered row and no spilled parts. -/
theorem C2_lazy_collection_witness :
    (cDemo.is_active = true ∧ cDemo.buffer ≠ []) ∧
    (RealtimeCollector.get_result cDemo {} "t").1 =
      CollectResult.ref ("merged_final_" ++ "t") (cDemo.spilled_parts.length + 1) ∧
    (RealtimeCollector.get_result cDemo {} "t").2.batches =
      ({} : StorageState).batches ++ [cDemo.buffer] :=
  ⟨⟨by decide, by decide⟩,
   (C2_lazy_collection.2.2.2.1 cDemo {} "t" (by decide) (by decide)).1,
   (C2_lazy_collection.2.2.2.1 cDemo {} "t" (by decide) (by decide)).2⟩

/-- Claim C10: both collector limits come from environment variables with
defaults 5242880 bytes and 100000 rows, and a flush is also triggered whenever
the buffered row count reaches the row-group limit even while the byte total
is still strictly below the byte threshold. -/
theorem C10_row_group_and_env :
    ResourcePolicy.ofEnv (fun _ => none) =
      { AUTO_SPILL_THRESHOLD_BYTES := 5242880, ROW_GROUP_SIZE := 100000 } ∧
    ResourcePolicy.ofEnv
        (fun k => if k = "DFX_MEMORY_THRESHOLD_BYTES" then some 64 else
                  if k = "DFX_ROW_GROUP_SIZE" then some 2 else none) =
      { AUTO_SPILL_THRESHOLD_BYTES := 64, ROW_GROUP_SIZE := 2 } ∧
    (∀ getenv : String → Option Nat,
        (ResourcePolicy.ofEnv getenv).AUTO_SPILL_THRESHOLD_BYTES =
          (getenv "DFX_MEMORY_THRESHOLD_BYTES").getD (5 * 1024 * 1024) ∧
        (ResourcePolicy.ofEnv getenv).ROW_GROUP_SIZE =
          (getenv "DFX_ROW_GROUP_SIZE").getD 100000) ∧
    (∀ (p : ResourcePolicy) (c : RealtimeCollector) (st : StorageState) (row : Row),
        c.current_buffer_bytes + estimate_row_size row < p.AUTO_SPILL_THRESHOLD_BYTES →
        p.ROW_GROUP_SIZE ≤ c.buffer.length + 1 →
        (RealtimeCollector.add p c st row).1.buffer = [] ∧
        (RealtimeCollector.add p c st row).1.current_buffer_bytes = 0 ∧
        (RealtimeCollector.add p c st row).1.spilled_parts =
          c.spilled_parts ++ ["part_" ++ toString st.batches.length] ∧
        (RealtimeCollector.add p c st row).2.batches =
          st.batches ++ [c.buffer ++ [row]]) := by
  refine ⟨by decide, by decide, fun getenv => ⟨rfl, rfl⟩, ?_⟩
  intro p c st row hb hr
  have h := add_flush p c st row (Or.inr hr)
  refine ⟨?_, ?_, ?_, h.2⟩ <;> rw [h.1]

/-- Claim C10 witness: with row-group limit 2 and 80 buffered bytes far below
the byte threshold, adding the second row flushes. -/
theorem C10_row_group_and_env_witness :
    (cDemo.current_buffer_bytes + estimate_row_size (srow 2) <
        polRG2.AUTO_SPILL_THRESHOLD_BYTES ∧
      polRG2.ROW_GROUP_SIZE ≤ cDemo.buffer.length + 1) ∧
    (RealtimeCollector.add polRG2 cDemo {} (srow 2)).1.buffer = [] ∧
    (RealtimeCollector.add polRG2 cDemo {} (srow 2)).2.batches =
      ({} : StorageState).batches ++ [cDemo.buffer ++ [srow 2]] :=
  ⟨⟨by decide, by decide⟩,
   (C10_row_group_and_env.2.2.2 polRG2 cDemo {} (srow 2) (by decide) (by decide)).1,
   (C10_row_group_and_env.2.2.2 polRG2 cDemo {} (srow 2) (by decide) (by decide)).2.2.2⟩

/-- Claim C6: the alignment check reports drift_missing_in_code exactly for
the persisted names minus the scanned names, drift_missing_in_contract exactly
for the scanned names minus the persisted names, passes iff both differences
are empty, and a manifest generated and persisted from a scan aligns with an
identical fresh scan with zero drift. -/
theorem C6_alignment_drift :
    (∀ (M C : List JVal) (n : JVal),
        (n ∈ (check_code_alignment M C).missing_in_code ↔ n ∈ M ∧ n ∉ C) ∧
        (n ∈ (check_code_alignment M C).missing_in_manifest ↔ n ∈ C ∧ n ∉ M)) ∧
    (∀ M C : List JVal,
        (check_code_alignment M C).valid = true ↔
          ((∀ n ∈ M, n ∈ C) ∧ (∀ n ∈ C, n ∈ M))) ∧
    (∀ (recs : List ActionRec) (rootName : String) (existing : Option JObj),
        check_code_alignment
          (manifestActionNames (build_manifest_data recs rootName existing))
          (recs.map (fun a => JVal.s a.name)) =
        { valid := true, missing_in_code := [], missing_in_manifest := [] }) := by
  refine ⟨fun M C n => ⟨mem_missing_in_code M C n, mem_missing_in_manifest M C n⟩,
    alignment_valid_iff, fun recs rootName existing => ?_⟩
  rw [manifestActionNames_build]
  exact alignment_self _

/-- Claim C9 counterexample: with no requirements file (the dependency check
passes) and no parseable manifest.yaml, the audit returns false immediately
and the alignment, schema and annotation sub-checks never run, contradicting
both the no-short-circuit claim and the claim that the audit is true iff no
sub-check failed. -/
theorem C9_counterexample :
    check_all [] none none [] =
      { passed := false, ranChecks := ["security", "requirements"] } ∧
    check_requirements none = true ∧
    "alignment" ∉ (check_all [] none none []).ranChecks ∧
    "annotations" ∉ (check_all [] none none []).ranChecks := by
  decide

/-- Claim C9 amended: when manifest.yaml exists and parses, the audit runs the
requirements, alignment, schema-content and annotation sub-checks without
short-circuiting and returns exactly their conjunction, while the security
scan runs first but only warns and never influences the outcome; when the
manifest is missing or unparseable, the audit returns false immediately
without running the alignment, schema or annotation sub-checks. -/
theorem C9_audit_composition :
    (∀ (secW : List String) (reqLines : Option (List String)) (m : JObj)
        (codeActions : List ActionRec),
        (check_all secW reqLines (some m) codeActions).passed =
          (check_requirements reqLines &&
            (check_code_alignment (manifestActionNames m)
              (codeActions.map (fun a => JVal.s a.name))).valid &&
            check_manifest_content m &&
            (validate_actions codeActions).isEmpty) ∧
        (check_all secW reqLines (some m) codeActions).ranChecks =
          ["security", "requirements", "alignment", "schema_content", "annotations"] ∧
        check_all secW reqLines (some m) codeActions =
          check_all [] reqLines (some m) codeActions) ∧
    (∀ (secW : List String) (reqLines : Option (List String))
        (codeActions : List ActionRec),
        (check_all secW reqLines none codeActions).passed = false ∧
        (check_all secW reqLines none codeActions).ranChecks =
          ["security", "requirements"]) := by
  refine ⟨fun secW reqLines m codeActions => ⟨?_, rfl, rfl⟩, fun _ _ _ => ⟨rfl, rfl⟩⟩
  simp only [check_all]
  exact bool_not_or_chain _ _ _ _

/-- Claim C8 counterexample: a prior cache entry exists (a persisted scan of a
directory with no actions) and no scanned file is newer than it, yet the scan
does not return the cached list: it recomputes fully, performs enrichment
loads, and overwrites the entry. -/
theorem C8_counterexample :
    is_cache_valid (some cacheEmptyEntry) [some 5] = true ∧
    scan_tools_directory true (some cacheEmptyEntry) [some 5] [recA] 7 20 =
      { actions := [recA], enrichLoads := 7,
        cacheAfter := some { mtime := 20, content := some [recA] } } ∧
    (scan_tools_directory true (some cacheEmptyEntry) [some 5] [recA] 7 20).enrichLoads
      ≠ 0 ∧
    (scan_tools_directory true (some cacheEmptyEntry) [some 5] [recA] 7 20).actions ≠
      ([] : List ActionRec) := by
  decide

/-- Claim C8 amended: the cached Action list is returned unchanged with zero
enrichment loads exactly when a cache entry exists, every scanned file has a
stat mtime not above the cache file mtime, and the entry content loads as a
non-empty list; when validity fails, or the content is unreadable or empty,
the scan recomputes fully and overwrites the entry with the fresh result. -/
theorem C8_scan_cache :
    (∀ (c : CacheEntry) (files : List (Option Nat)),
        is_cache_valid (some c) files = true ↔
          ∀ mt ∈ files, ∃ m, mt = some m ∧ m ≤ c.mtime) ∧
    (∀ files : List (Option Nat), is_cache_valid none files = false) ∧
    (∀ (c : CacheEntry) (files : List (Option Nat)) (fA : List ActionRec)
        (fL nm : Nat) (acts : List ActionRec),
        c.content = some acts → acts ≠ [] →
        is_cache_valid (some c) files = true →
        scan_tools_directory true (some c) files fA fL nm =
          { actions := acts, enrichLoads := 0, cacheAfter := some c }) ∧
    (∀ (cache : Option CacheEntry) (files : List (Option Nat)) (fA : List ActionRec)
        (fL nm : Nat),
        is_cache_valid cache files = false →
        scan_tools_directory true cache files fA fL nm =
          { actions := fA, enrichLoads := fL,
            cacheAfter := some { mtime := nm, content := some fA } }) ∧
    (∀ (c : CacheEntry) (files : List (Option Nat)) (fA : List ActionRec) (fL nm : Nat),
        (c.content = none ∨ c.content = some []) →
        scan_tools_directory true (some c) files fA fL nm =
          { actions := fA, enrichLoads := fL,
            cacheAfter := some { mtime := nm, content := some fA } }) :=
  ⟨is_cache_valid_iff, fun _ => rfl, scan_cache_hit, scan_cache_miss, scan_cache_unusable⟩

/-- Claim C8 witness: a valid non-empty cache entry is reused with zero loads,
and a newer file invalidates it and forces the recompute-and-overwrite path. -/
theorem C8_scan_cache_witness :
    (cacheGood.content = some [recA] ∧ ([recA] : List ActionRec) ≠ [] ∧
      is_cache_valid (some cacheGood) [some 5] = true) ∧
    scan_tools_directory true (some cacheGood) [some 5] [] 9 20 =
      { actions := [recA], enrichLoads := 0, cacheAfter := some cacheGood } ∧
    (is_cache_valid (some cacheGood) [some 99] = false ∧
      scan_tools_directory true (some cacheGood) [some 99] [recA] 9 20 =
        { actions := [recA], enrichLoads := 9,
          cacheAfter := some { mtime := 20, content := some [recA] } }) :=
  ⟨⟨by decide, by decide, by decide⟩,
   C8_scan_cache.2.2.1 cacheGood [some 5] [] 9 20 [recA] (by decide) (by decide)
     (by decide),
   ⟨by decide, C8_scan_cache.2.2.2.1 (some cacheGood) [some 99] [recA] 9 20 (by decide)⟩⟩

/-- Claim C6 witness: the round-trip part applied to a one-action scan. -/
theorem C6_alignment_drift_witness :
    check_code_alignment
        (manifestActionNames (build_manifest_data [recA] "proj" none))
        (([recA] : List ActionRec).map (fun a => JVal.s a.name)) =
      { valid := true, missing_in_code := [], missing_in_manifest := [] } :=
  C6_alignment_drift.2.2 [recA] "proj" none

/-- Claim C9 witness: the conjunction equation applied to a concrete project
whose manifest was generated from its own one-action scan. -/
theorem C9_audit_composition_witness :
    (check_all [] none (some (build_manifest_data [recA] "proj" none)) [recA]).passed =
      (check_requirements none &&
        (check_code_alignment
            (manifestActionNames (build_manifest_data [recA] "proj" none))
            (([recA] : List ActionRec).map (fun a => JVal.s a.name))).valid &&
        check_manifest_content (build_manifest_data [recA] "proj" none) &&
        (validate_actions [recA]).isEmpty) :=
  (C9_audit_composition.1 [] none (build_manifest_data [recA] "proj" none) [recA]).1
